import Mathlib

/-!
Verification of the browser session/action-dispatch core of this repository
(`app/tool/browser_use_tooal.py`), shallowly embedded in Lean 4.

The tool object holds an optional Selenium driver (`self.driver`), an
`asyncio.Lock`, and dispatches a fixed catalog of actions in `execute`.
Browser interactions go through an environment record `Env`: each Selenium
primitive is a function that either returns the new driver state or raises
(`Outcome.exc`), mirroring a thrown Python exception.  Every call also
records the ordered trace of events (lock acquisition/release and browser
touches) so that locking and "browser untouched" claims are statable.
-/

namespace BrowserTool

/-- Result type of a tool call.  Modelled from the spec: `app/tool/base.py`
(`ToolResult`) is not part of the sources; section 6 of the spec gives its
shape as a record with optional `output`, optional `error` and an optional
embedded image, of which exactly one of `output`/`error` is populated. -/
structure ToolResult where
  output : Option String := none
  error : Option String := none
  base64_image : Option String := none
  deriving Repr, DecidableEq

def mkOut (s : String) : ToolResult := { output := some s }

def mkErr (s : String) : ToolResult := { error := some s }

/-- An interactive DOM element as the tool sees it (a Selenium element
handle; only its serialized markup is observable in the sources). -/
structure Element where
  outerHTML : String
  deriving Repr, DecidableEq

/-- One `<option>` of a `<select>` element: visible text and value. -/
structure SelectOption where
  text : String
  value : String
  deriving Repr, DecidableEq

/-- A `<select>` element together with its options. -/
structure SelectElem where
  options : List SelectOption
  deriving Repr, DecidableEq

/-- One open browser tab (window handle); only its URL is observed. -/
structure Tab where
  url : String
  deriving Repr, DecidableEq

/-- The live browser state observable through the Selenium driver:
window handles with the index of the current one, page title and markup,
the three category-filtered element lists that `find_elements` returns,
scroll metrics, and the screenshot bytes. -/
structure Driver where
  tabs : List Tab
  current : Nat
  title : String
  pageSource : String
  clickable : List Element
  textInputs : List Element
  selects : List SelectElem
  scrollY : Int
  scrollHeight : Int
  viewportHeight : Int
  screenshot : String
  deriving Repr, DecidableEq

/-- `driver.current_url`: the URL of the currently focused window handle. -/
def currentUrl (d : Driver) : String :=
  ((d.tabs.get? d.current).map Tab.url).getD ""

/-- Python fallible computation: a value or a raised exception message. -/
inductive Outcome (α : Type) where
  | ok (a : α)
  | exc (msg : String)
  deriving Repr, DecidableEq

/-- A browser interaction, for the event trace. -/
inductive BEvent where
  | launch
  | navigate (url : String)
  | waitBody
  | historyBack
  | reloadPage
  | searchCall (q : String)
  | clickElem (e : Element)
  | clearElem (e : Element)
  | typeInto (e : Element) (t : String)
  | runScript (s : String)
  | findText (t : String)
  | scrollIntoView
  | sendKeysSeq (k : String)
  | readDOM
  | readSelect (s : SelectElem)
  | selectOpt (s : SelectElem) (t : String)
  | closeWindow
  | switchWindow (i : Nat)
  | askLLM (prompt : String)
  | sleep (n : Int)
  | screenshotEv
  | quitBrowser
  deriving Repr, DecidableEq

/-- Trace events: lock transitions and browser interactions. -/
inductive Event where
  | lockAcquire
  | lockRelease
  | browser (b : BEvent)
  deriving Repr, DecidableEq

/-- One ranked result of the web-search collaborator. -/
structure SearchResult where
  url : String
  deriving Repr, DecidableEq

/-- Modelled from the spec: `app/tool/web_search.py` is not part of the
sources.  The collaborator returns a response holding ranked results
(`search(query, fetch_content, num_results) -> ranked list of {url, ...}`);
the response object is itself a tool result, which `execute` returns
unchanged for the `web_search` action. -/
structure SearchResponse where
  results : List SearchResult
  asResult : ToolResult
  deriving Repr, DecidableEq

/-- One structured tool call in a language-model response. -/
structure ToolCall where
  arguments : String
  deriving Repr, DecidableEq

/-- Modelled from the spec: `app/llm.py` is not part of the sources.  The
language-model collaborator (`ask_tool`) answers with an optional response
carrying a possibly empty list of structured tool calls. -/
structure LLMResponse where
  tool_calls : List ToolCall
  deriving Repr, DecidableEq

/-- The behaviour of the outside world: each Selenium / collaborator
primitive used by the tool, as a fallible function of the driver state.
`launchResult` is `webdriver.Chrome(options)`; the rest follow the call
sites in `execute`/`get_current_state`/`cleanup` one-to-one. -/
structure Env where
  launchResult : Outcome Driver
  navigate : Driver → String → Outcome Driver
  waitBody : Driver → Outcome Unit
  goBackRes : Driver → Outcome Driver
  refreshRes : Driver → Outcome Driver
  searchRes : String → Outcome SearchResponse
  clickRes : Driver → Element → Outcome Driver
  clearRes : Driver → Element → Outcome Driver
  typeRes : Driver → Element → String → Outcome Driver
  scriptRes : Driver → String → Outcome Driver
  findTextRes : Driver → String → Outcome Unit
  scrollViewRes : Driver → Outcome Driver
  sendKeysRes : Driver → String → Outcome Driver
  selectOptRes : Driver → SelectElem → String → Outcome Driver
  markdownifyRes : String → Outcome String
  askToolRes : String → Outcome (Option LLMResponse)
  parseArgsRes : String → Outcome String
  readRes : Driver → Outcome Unit
  screenshotRes : Driver → Outcome Unit
  quitRes : Driver → Outcome Unit
  maxContentLength : Nat

/-- The persistent state of the tool object: `self.driver`. -/
structure ToolState where
  driver : Option Driver
  deriving Repr, DecidableEq

/-- The keyword parameters of `BrowserUseTool.execute`. -/
structure Params where
  url : Option String := none
  index : Option Int := none
  text : Option String := none
  scroll_amount : Option Int := none
  tab_id : Option Int := none
  query : Option String := none
  goal : Option String := none
  keys : Option String := none
  seconds : Option Int := none
  deriving Repr, DecidableEq

/-- Python falsiness of an optional string parameter (`not url` is true
when the parameter is absent or the empty string). -/
def falsyS : Option String → Bool
  | none => true
  | some s => s = ""

/-- Python list indexing `l[i]` with an `int` index: non-negative indices
count from the front, indices in `[-len, -1]` count from the back, and
anything else raises `IndexError` (here: `none`). -/
def pyIdx {α : Type} (l : List α) (i : Int) : Option α :=
  if 0 ≤ i then l.get? i.toNat
  else if 0 ≤ i + l.length then l.get? (i + l.length).toNat
  else none

/-- The fixed action enumeration of the tool's parameter schema
(`parameters.properties.action.enum`). -/
def actionEnum : List String :=
  ["go_to_url", "click_element", "input_text", "scroll_down", "scroll_up",
   "scroll_to_text", "send_keys", "get_dropdown_options",
   "select_dropdown_option", "go_back", "web_search", "wait",
   "extract_content", "switch_tab", "open_tab", "close_tab"]

/-- The declared required-parameter subsets of the tool's parameter schema
(`parameters.dependencies`). -/
def dependencies : List (String × List String) :=
  [("go_to_url", ["url"]), ("click_element", ["index"]),
   ("input_text", ["index", "text"]), ("switch_tab", ["tab_id"]),
   ("open_tab", ["url"]), ("scroll_down", ["scroll_amount"]),
   ("scroll_up", ["scroll_amount"]), ("scroll_to_text", ["text"]),
   ("send_keys", ["keys"]), ("get_dropdown_options", ["index"]),
   ("select_dropdown_option", ["index", "text"]), ("go_back", []),
   ("web_search", ["query"]), ("wait", ["seconds"]),
   ("extract_content", ["goal"])]

/-- `_ensure_browser_initialized`: return the existing driver, or launch a
new one and store it in `self.driver`.  A launch failure propagates as an
exception and leaves `self.driver` unset. -/
def ensure_browser_initialized (env : Env) (st : ToolState) :
    Outcome Driver × ToolState × List BEvent :=
  match st.driver with
  | some d => (.ok d, st, [])
  | none =>
    match env.launchResult with
    | .ok d => (.ok d, ⟨some d⟩, [.launch])
    | .exc m => (.exc m, st, [.launch])

/-- Python `repr` of one entry of the options list built by
`get_dropdown_options`. -/
def renderOption (idx : Nat) (o : SelectOption) : String :=
  "\x7b'text': '" ++ o.text ++ "', 'value': '" ++ o.value ++
    "', 'index': " ++ toString idx ++ "\x7d"

/-- Python `repr` of the options list built by `get_dropdown_options`. -/
def renderOptions (opts : List SelectOption) : String :=
  "[" ++ String.intercalate ", "
    (opts.enum.map (fun p => renderOption p.1 p.2)) ++ "]"

/-- The system prompt built by the `extract_content` handler. -/
def extractionPrompt (goal content : String) : String :=
  "Your task is to extract the content of the page. You will be given a page and a goal, and you should extract all relevant information around this goal from the page. If the goal is vague, summarize the page. Respond in json format.\nExtraction goal: " ++
    goal ++ "\n\nPage content:\n" ++ content ++ "\n"

/-- Result of the body of one `execute` dispatch branch: the outcome (a
tool result, or an uncaught exception), the driver state it left behind,
and the browser interactions it performed, in order. -/
abbrev BodyRes := Outcome ToolResult × Driver × List BEvent

def handle_go_to_url (env : Env) (drv : Driver) (p : Params) : BodyRes :=
  if falsyS p.url then
    (.ok (mkErr "URL is required for 'go_to_url' action"), drv, [])
  else
    let u := p.url.getD ""
    match env.navigate drv u with
    | .exc m => (.exc m, drv, [.navigate u])
    | .ok d1 =>
      match env.waitBody d1 with
      | .exc m => (.exc m, d1, [.navigate u, .waitBody])
      | .ok _ => (.ok (mkOut ("Navigated to " ++ u)), d1, [.navigate u, .waitBody])

def handle_go_back (env : Env) (drv : Driver) : BodyRes :=
  match env.goBackRes drv with
  | .exc m => (.exc m, drv, [.historyBack])
  | .ok d1 =>
    match env.waitBody d1 with
    | .exc m => (.exc m, d1, [.historyBack, .waitBody])
    | .ok _ => (.ok (mkOut "Navigated back"), d1, [.historyBack, .waitBody])

def handle_refresh (env : Env) (drv : Driver) : BodyRes :=
  match env.refreshRes drv with
  | .exc m => (.exc m, drv, [.reloadPage])
  | .ok d1 =>
    match env.waitBody d1 with
    | .exc m => (.exc m, d1, [.reloadPage, .waitBody])
    | .ok _ => (.ok (mkOut "Refreshed current page"), d1, [.reloadPage, .waitBody])

def handle_web_search (env : Env) (drv : Driver) (p : Params) : BodyRes :=
  if falsyS p.query then
    (.ok (mkErr "Query is required for 'web_search' action"), drv, [])
  else
    let q := p.query.getD ""
    match env.searchRes q with
    | .exc m => (.exc m, drv, [.searchCall q])
    | .ok resp =>
      match resp.results.head? with
      | none => (.exc "list index out of range", drv, [.searchCall q])
      | some r0 =>
        match env.navigate drv r0.url with
        | .exc m => (.exc m, drv, [.searchCall q, .navigate r0.url])
        | .ok d1 =>
          match env.waitBody d1 with
          | .exc m => (.exc m, d1, [.searchCall q, .navigate r0.url, .waitBody])
          | .ok _ => (.ok resp.asResult, d1, [.searchCall q, .navigate r0.url, .waitBody])

def handle_click_element (env : Env) (drv : Driver) (p : Params) : BodyRes :=
  match p.index with
  | none => (.ok (mkErr "Index is required for 'click_element' action"), drv, [])
  | some i =>
    let elements := drv.clickable
    if (elements.length : Int) ≤ i then
      (.ok (mkErr ("Element with index " ++ toString i ++ " not found")), drv, [.readDOM])
    else
      match pyIdx elements i with
      | none => (.exc "list index out of range", drv, [.readDOM])
      | some el =>
        match env.clickRes drv el with
        | .exc m => (.exc m, drv, [.readDOM, .clickElem el])
        | .ok d1 =>
          match env.waitBody d1 with
          | .exc m => (.exc m, d1, [.readDOM, .clickElem el, .waitBody])
          | .ok _ =>
            (.ok (mkOut ("Clicked element at index " ++ toString i)), d1,
              [.readDOM, .clickElem el, .waitBody])

def handle_input_text (env : Env) (drv : Driver) (p : Params) : BodyRes :=
  if p.index.isNone || falsyS p.text then
    (.ok (mkErr "Index and text are required for 'input_text' action"), drv, [])
  else
    let i := p.index.getD 0
    let t := p.text.getD ""
    let elements := drv.textInputs
    if (elements.length : Int) ≤ i then
      (.ok (mkErr ("Element with index " ++ toString i ++ " not found")), drv, [.readDOM])
    else
      match pyIdx elements i with
      | none => (.exc "list index out of range", drv, [.readDOM])
      | some el =>
        match env.clearRes drv el with
        | .exc m => (.exc m, drv, [.readDOM, .clearElem el])
        | .ok d1 =>
          match env.typeRes d1 el t with
          | .exc m => (.exc m, d1, [.readDOM, .clearElem el, .typeInto el t])
          | .ok d2 =>
            (.ok (mkOut ("Input '" ++ t ++ "' into element at index " ++ toString i)), d2,
              [.readDOM, .clearElem el, .typeInto el t])

def handle_scroll (env : Env) (drv : Driver) (action : String) (p : Params) : BodyRes :=
  let direction : Int := if action = "scroll_down" then 1 else -1
  let amount : Int := p.scroll_amount.getD 1080
  let script := "window.scrollBy(0, " ++ toString (direction * amount) ++ ");"
  match env.scriptRes drv script with
  | .exc m => (.exc m, drv, [.runScript script])
  | .ok d1 =>
    (.ok (mkOut ("Scrolled " ++ (if direction > 0 then "down" else "up") ++
      " by " ++ toString amount ++ " pixels")), d1, [.runScript script])

def handle_scroll_to_text (env : Env) (drv : Driver) (p : Params) : BodyRes :=
  if falsyS p.text then
    (.ok (mkErr "Text is required for 'scroll_to_text' action"), drv, [])
  else
    let t := p.text.getD ""
    match env.findTextRes drv t with
    | .exc m => (.ok (mkErr ("Failed to scroll to text: " ++ m)), drv, [.findText t])
    | .ok _ =>
      match env.scrollViewRes drv with
      | .exc m =>
        (.ok (mkErr ("Failed to scroll to text: " ++ m)), drv, [.findText t, .scrollIntoView])
      | .ok d1 =>
        (.ok (mkOut ("Scrolled to text: '" ++ t ++ "'")), d1, [.findText t, .scrollIntoView])

def handle_send_keys (env : Env) (drv : Driver) (p : Params) : BodyRes :=
  if falsyS p.keys then
    (.ok (mkErr "Keys are required for 'send_keys' action"), drv, [])
  else
    let k := p.keys.getD ""
    match env.sendKeysRes drv k with
    | .exc m => (.exc m, drv, [.sendKeysSeq k])
    | .ok d1 => (.ok (mkOut ("Sent keys: " ++ k)), d1, [.sendKeysSeq k])

def handle_get_dropdown_options (drv : Driver) (p : Params) : BodyRes :=
  match p.index with
  | none => (.ok (mkErr "Index is required for 'get_dropdown_options' action"), drv, [])
  | some i =>
    let elements := drv.selects
    if (elements.length : Int) ≤ i then
      (.ok (mkErr ("Element with index " ++ toString i ++ " not found")), drv, [.readDOM])
    else
      match pyIdx elements i with
      | none => (.exc "list index out of range", drv, [.readDOM])
      | some sel =>
        (.ok (mkOut ("Dropdown options: " ++ renderOptions sel.options)), drv,
          [.readDOM, .readSelect sel])

def handle_select_dropdown_option (env : Env) (drv : Driver) (p : Params) : BodyRes :=
  if p.index.isNone || falsyS p.text then
    (.ok (mkErr "Index and text are required for 'select_dropdown_option' action"), drv, [])
  else
    let i := p.index.getD 0
    let t := p.text.getD ""
    let elements := drv.selects
    if (elements.length : Int) ≤ i then
      (.ok (mkErr ("Element with index " ++ toString i ++ " not found")), drv, [.readDOM])
    else
      match pyIdx elements i with
      | none => (.exc "list index out of range", drv, [.readDOM])
      | some sel =>
        match env.selectOptRes drv sel t with
        | .exc m => (.exc m, drv, [.readDOM, .selectOpt sel t])
        | .ok d1 =>
          (.ok (mkOut ("Selected option '" ++ t ++ "' from dropdown at index " ++ toString i)),
            d1, [.readDOM, .selectOpt sel t])

def handle_extract_content (env : Env) (drv : Driver) (p : Params) : BodyRes :=
  if falsyS p.goal then
    (.ok (mkErr "Goal is required for 'extract_content' action"), drv, [])
  else
    let g := p.goal.getD ""
    match env.markdownifyRes drv.pageSource with
    | .exc m => (.exc m, drv, [])
    | .ok content =>
      let prompt := extractionPrompt g (content.take env.maxContentLength)
      match env.askToolRes prompt with
      | .exc m => (.exc m, drv, [.askLLM prompt])
      | .ok none => (.ok (mkOut "No content was extracted from the page."), drv, [.askLLM prompt])
      | .ok (some resp) =>
        match resp.tool_calls with
        | [] => (.ok (mkOut "No content was extracted from the page."), drv, [.askLLM prompt])
        | tc :: _ =>
          match env.parseArgsRes tc.arguments with
          | .exc m => (.exc m, drv, [.askLLM prompt])
          | .ok args =>
            (.ok (mkOut ("Extracted from page:\n" ++ args ++ "\n")), drv, [.askLLM prompt])

def handle_switch_tab (env : Env) (drv : Driver) (p : Params) : BodyRes :=
  match p.tab_id with
  | none => (.ok (mkErr "Tab ID is required for 'switch_tab' action"), drv, [])
  | some tid =>
    if (drv.tabs.length : Int) ≤ tid then
      (.ok (mkErr ("Tab with ID " ++ toString tid ++ " not found")), drv, [])
    else
      match pyIdx (List.range drv.tabs.length) tid with
      | none => (.exc "list index out of range", drv, [])
      | some j =>
        let d1 := { drv with current := j }
        match env.waitBody d1 with
        | .exc m => (.exc m, d1, [.switchWindow j, .waitBody])
        | .ok _ => (.ok (mkOut ("Switched to tab " ++ toString tid)), d1,
            [.switchWindow j, .waitBody])

def handle_open_tab (env : Env) (drv : Driver) (p : Params) : BodyRes :=
  if falsyS p.url then
    (.ok (mkErr "URL is required for 'open_tab' action"), drv, [])
  else
    let u := p.url.getD ""
    let script := "window.open('" ++ u ++ "');"
    match env.scriptRes drv script with
    | .exc m => (.exc m, drv, [.runScript script])
    | .ok d1 =>
      match pyIdx (List.range d1.tabs.length) (-1) with
      | none => (.exc "list index out of range", d1, [.runScript script])
      | some j =>
        let d2 := { d1 with current := j }
        match env.waitBody d2 with
        | .exc m => (.exc m, d2, [.runScript script, .switchWindow j, .waitBody])
        | .ok _ => (.ok (mkOut ("Opened new tab with " ++ u)), d2,
            [.runScript script, .switchWindow j, .waitBody])

def handle_close_tab (env : Env) (drv : Driver) : BodyRes :=
  if 1 < drv.tabs.length then
    let remaining := drv.tabs.eraseIdx drv.current
    let d1 := { drv with tabs := remaining }
    match pyIdx (List.range remaining.length) (-1) with
    | none => (.exc "list index out of range", d1, [.closeWindow])
    | some j =>
      let d2 := { d1 with current := j }
      match env.waitBody d2 with
      | .exc m => (.exc m, d2, [.closeWindow, .switchWindow j, .waitBody])
      | .ok _ => (.ok (mkOut "Closed current tab"), d2,
          [.closeWindow, .switchWindow j, .waitBody])
  else (.ok (mkErr "Cannot close the last tab"), drv, [])

def handle_wait (drv : Driver) (p : Params) : BodyRes :=
  let s := p.seconds.getD 3
  (.ok (mkOut ("Waited for " ++ toString s ++ " seconds")), drv, [.sleep s])

/-- The body of the `try` block of `execute` after browser initialization:
the if/elif dispatch over the action name. -/
def dispatchBody (env : Env) (drv : Driver) (action : String) (p : Params) : BodyRes :=
  if action = "go_to_url" then handle_go_to_url env drv p
  else if action = "go_back" then handle_go_back env drv
  else if action = "refresh" then handle_refresh env drv
  else if action = "web_search" then handle_web_search env drv p
  else if action = "click_element" then handle_click_element env drv p
  else if action = "input_text" then handle_input_text env drv p
  else if action = "scroll_down" || action = "scroll_up" then handle_scroll env drv action p
  else if action = "scroll_to_text" then handle_scroll_to_text env drv p
  else if action = "send_keys" then handle_send_keys env drv p
  else if action = "get_dropdown_options" then handle_get_dropdown_options drv p
  else if action = "select_dropdown_option" then handle_select_dropdown_option env drv p
  else if action = "extract_content" then handle_extract_content env drv p
  else if action = "switch_tab" then handle_switch_tab env drv p
  else if action = "open_tab" then handle_open_tab env drv p
  else if action = "close_tab" then handle_close_tab env drv
  else if action = "wait" then handle_wait drv p
  else (.ok (mkErr ("Unknown action: " ++ action)), drv, [])

/-- `BrowserUseTool.execute`: takes the session lock, lazily initializes
the browser, dispatches, and converts any exception of the body into a
failure result embedding the action name; the lock is released on every
exit path. -/
def execute (env : Env) (st : ToolState) (action : String) (p : Params) :
    ToolResult × ToolState × List Event :=
  match ensure_browser_initialized env st with
  | (.exc m, st1, evs) =>
    (mkErr ("Browser action '" ++ action ++ "' failed: " ++ m), st1,
      [Event.lockAcquire] ++ evs.map Event.browser ++ [Event.lockRelease])
  | (.ok drv, st1, evs) =>
    match dispatchBody env drv action p with
    | (.exc m, d1, evs2) =>
      (mkErr ("Browser action '" ++ action ++ "' failed: " ++ m),
        { st1 with driver := some d1 },
        [Event.lockAcquire] ++ (evs ++ evs2).map Event.browser ++ [Event.lockRelease])
    | (.ok r, d1, evs2) =>
      (r, { st1 with driver := some d1 },
        [Event.lockAcquire] ++ (evs ++ evs2).map Event.browser ++ [Event.lockRelease])

/-- The per-tab entries of the `tabs` field of the state snapshot: one
pair per window handle, whose url is `driver.current_url` for the focused
handle and the empty string for every other handle. -/
def stateTabs (d : Driver) : List (Nat × String) :=
  (List.range d.tabs.length).map
    (fun i => (i, if i = d.current then currentUrl d else ""))

/-- The `interactive_elements` listing of the state snapshot: one line per
clickable element, `[i]` followed by the first 100 characters of its
serialized markup. -/
def elementsListing (d : Driver) : String :=
  String.intercalate "\n"
    (d.clickable.enum.map (fun p => "[" ++ toString p.1 ++ "] " ++ p.2.outerHTML.take 100))

/-- The structured content of the `state_info` dictionary built by
`get_current_state` (before JSON serialization). -/
structure StateInfo where
  url : String
  title : String
  tabs : List (Nat × String)
  interactive_elements : String
  pixels_above : Int
  pixels_below : Int
  total_height : Int
  viewport_height : Int
  deriving Repr, DecidableEq

/-- The `state_info` dictionary of `get_current_state`, computed from the
current driver state. -/
def stateInfo (d : Driver) : StateInfo :=
  { url := currentUrl d
    title := d.title
    tabs := stateTabs d
    interactive_elements := elementsListing d
    pixels_above := d.scrollY
    pixels_below := d.scrollHeight - d.scrollY - d.viewportHeight
    total_height := d.scrollHeight
    viewport_height := d.viewportHeight }

/-- Serialization of one `(id, url)` tab entry of the snapshot. -/
def renderTab (t : Nat × String) : String :=
  "\x7b\x22id\x22: " ++ toString t.1 ++ ", \x22url\x22: \x22" ++ t.2 ++ "\x22\x7d"

/-- Serialization of `state_info` (the `json.dumps` step, abstracted to a
field-by-field rendering that keeps every field of the dictionary). -/
def renderStateInfo (si : StateInfo) : String :=
  "\x7b\x22url\x22: \x22" ++ si.url ++ "\x22, \x22title\x22: \x22" ++ si.title ++
    "\x22, \x22tabs\x22: [" ++ String.intercalate ", " (si.tabs.map renderTab) ++
    "], \x22interactive_elements\x22: \x22" ++ si.interactive_elements ++
    "\x22, \x22scroll_info\x22: \x7b\x22pixels_above\x22: " ++ toString si.pixels_above ++
    ", \x22pixels_below\x22: " ++ toString si.pixels_below ++
    ", \x22total_height\x22: " ++ toString si.total_height ++
    "\x7d, \x22viewport_height\x22: " ++ toString si.viewport_height ++ "\x7d"

/-- `BrowserUseTool.get_current_state`: reads the driver state (element
listing, scroll metrics, screenshot) and returns the serialized snapshot
with the screenshot attached; any exception is converted to a failure
result.  Note: the source acquires no lock here, so the trace contains no
lock events. -/
def get_current_state (env : Env) (st : ToolState) :
    ToolResult × ToolState × List Event :=
  match ensure_browser_initialized env st with
  | (.exc m, st1, evs) =>
    (mkErr ("Failed to get browser state: " ++ m), st1, evs.map Event.browser)
  | (.ok d, st1, evs) =>
    match env.readRes d with
    | .exc m =>
      (mkErr ("Failed to get browser state: " ++ m), st1,
        (evs ++ [BEvent.readDOM]).map Event.browser)
    | .ok _ =>
      match env.screenshotRes d with
      | .exc m =>
        (mkErr ("Failed to get browser state: " ++ m), st1,
          (evs ++ [BEvent.readDOM, BEvent.screenshotEv]).map Event.browser)
      | .ok _ =>
        ({ output := some (renderStateInfo (stateInfo d)), error := none,
           base64_image := some d.screenshot }, st1,
          (evs ++ [BEvent.readDOM, BEvent.screenshotEv]).map Event.browser)

/-- `BrowserUseTool.cleanup`: under the lock, quit the driver if present
and clear the handle (in a `finally`, so the handle is cleared and the
lock released even when `quit` raises). -/
def cleanup (env : Env) (st : ToolState) :
    Outcome Unit × ToolState × List Event :=
  match st.driver with
  | none => (.ok (), st, [Event.lockAcquire, Event.lockRelease])
  | some d =>
    match env.quitRes d with
    | .exc m =>
      (.exc m, ⟨none⟩, [Event.lockAcquire, Event.browser .quitBrowser, Event.lockRelease])
    | .ok _ =>
      (.ok (), ⟨none⟩, [Event.lockAcquire, Event.browser .quitBrowser, Event.lockRelease])

/-! ### Concrete sample data for witnesses and counterexamples -/

def elA : Element := ⟨"<a href=x>A</a>"⟩

def elB : Element := ⟨"<button>B</button>"⟩

def elC : Element := ⟨"<a href=y>C</a>"⟩

def inX : Element := ⟨"<input type=text name=x>"⟩

def inY : Element := ⟨"<textarea name=y></textarea>"⟩

def selS : SelectElem := ⟨[⟨"Red", "r"⟩, ⟨"Blue", "b"⟩]⟩

/-- A sample two-tab driver state. -/
def sampleDriver : Driver :=
  { tabs := [⟨"https://a.test/"⟩, ⟨"https://b.test/"⟩]
    current := 0
    title := "A"
    pageSource := "<html><body>hello</body></html>"
    clickable := [elA, elB, elC]
    textInputs := [inX, inY]
    selects := [selS]
    scrollY := 0
    scrollHeight := 2000
    viewportHeight := 800
    screenshot := "c2NyZWVu" }

/-- A benign environment: every primitive succeeds and leaves the driver
unchanged (except where the handler itself updates it); launching yields
`sampleDriver`. -/
def okEnv : Env :=
  { launchResult := .ok sampleDriver
    navigate := fun d _ => .ok d
    waitBody := fun _ => .ok ()
    goBackRes := fun d => .ok d
    refreshRes := fun d => .ok d
    searchRes := fun _ => .ok ⟨[⟨"https://top.test/"⟩], mkOut "search results"⟩
    clickRes := fun d _ => .ok d
    clearRes := fun d _ => .ok d
    typeRes := fun d _ _ => .ok d
    scriptRes := fun d _ => .ok d
    findTextRes := fun _ _ => .ok ()
    scrollViewRes := fun d => .ok d
    sendKeysRes := fun d _ => .ok d
    selectOptRes := fun d _ _ => .ok d
    markdownifyRes := fun s => .ok s
    askToolRes := fun _ => .ok (some ⟨[⟨"argtext"⟩]⟩)
    parseArgsRes := fun _ => .ok "parsed"
    readRes := fun _ => .ok ()
    screenshotRes := fun _ => .ok ()
    quitRes := fun _ => .ok ()
    maxContentLength := 2000 }

/-- A fresh tool instance: no browser session yet. -/
def freshState : ToolState := ⟨none⟩

/-- The empty parameter map. -/
def noParams : Params := {}

/-- Exactly one of `output`/`error` is populated, and non-empty. -/
def exactlyOneB (r : ToolResult) : Bool :=
  match r.output, r.error with
  | some s, none => s != ""
  | none, some s => s != ""
  | _, _ => false

/-- What actually happens on a validation failure: the failure result with
the given message is returned, but only after the lock was acquired and a
browser session exists; no browser interaction other than the lazy session
launch takes place. -/
def validationConcl (env : Env) (st : ToolState) (a : String) (p : Params)
    (msg : String) : Prop :=
  (execute env st a p).1 = mkErr msg ∧
  (execute env st a p).2.1.driver.isSome = true ∧
  Event.lockAcquire ∈ (execute env st a p).2.2 ∧
  (∀ b, Event.browser b ∈ (execute env st a p).2.2 → b = BEvent.launch)

/-- A dispatch body is well-formed when every tool result it returns
normally populates exactly one of output/error, non-empty. -/
def bodyOk (b : BodyRes) : Prop :=
  ∀ r, b.1 = Outcome.ok r → exactlyOneB r = true

/-- An environment whose navigation primitive raises. -/
def failNavEnv : Env := { okEnv with navigate := fun _ _ => .exc "boom" }

/-- An environment whose browser launch raises. -/
def failLaunchEnv : Env := { okEnv with launchResult := .exc "no chrome" }

/-- An environment whose state reads raise. -/
def failReadEnv : Env := { okEnv with readRes := fun _ => .exc "lost" }

/-- An environment whose language model answers without any tool call. -/
def noCallEnv : Env := { okEnv with askToolRes := fun _ => .ok none }

/-- An environment whose language model answers with a tool call whose
arguments do not parse. -/
def badParseEnv : Env := { okEnv with parseArgsRes := fun _ => .exc "bad json" }

/-! ### Helper lemmas -/

theorem append_ne_empty (p s : String) (hp : p ≠ "") : p ++ s ≠ "" := by
  intro h
  apply hp
  have hd : p.data ++ s.data = [] := by
    have h2 := congrArg String.data h
    simpa [String.data_append] using h2
  have hp2 : p.data = [] := (List.append_eq_nil.mp hd).1
  apply String.ext
  rw [hp2]

theorem exOne_out (s : String) (h : s ≠ "") : exactlyOneB (mkOut s) = true := by
  simp [exactlyOneB, mkOut, h]

theorem exOne_err (s : String) (h : s ≠ "") : exactlyOneB (mkErr s) = true := by
  simp [exactlyOneB, mkErr, h]

theorem exOne_out_app (p s : String) (h : p ≠ "") :
    exactlyOneB (mkOut (p ++ s)) = true :=
  exOne_out _ (append_ne_empty p s h)

theorem exOne_err_app (p s : String) (h : p ≠ "") :
    exactlyOneB (mkErr (p ++ s)) = true :=
  exOne_err _ (append_ne_empty p s h)

/-! ### C6: locking discipline -/

/-- C6 (counterexample): `get_current_state` on a live session performs a
browser interaction (the DOM read for the element listing) but its trace
contains no lock acquisition at all, so it is false that every
state-reading operation acquires the session lock before touching the
browser. -/
theorem C6_counterexample :
    Event.browser BEvent.readDOM ∈ (get_current_state okEnv ⟨some sampleDriver⟩).2.2 ∧
    Event.lockAcquire ∉ (get_current_state okEnv ⟨some sampleDriver⟩).2.2 := by
  decide

/-- C6 (amended): `execute` and `cleanup` acquire the session lock before
any browser interaction and release it on every exit path — their traces
are exactly one lock acquisition, then browser events only, then one lock
release; `get_current_state`, however, touches the browser without ever
acquiring or releasing the lock. -/
theorem C6_amended :
    (∀ (env : Env) (st : ToolState) (action : String) (p : Params),
      ∃ bevs : List BEvent,
        (execute env st action p).2.2 =
          [Event.lockAcquire] ++ bevs.map Event.browser ++ [Event.lockRelease]) ∧
    (∀ (env : Env) (st : ToolState),
      ∃ bevs : List BEvent,
        (cleanup env st).2.2 =
          [Event.lockAcquire] ++ bevs.map Event.browser ++ [Event.lockRelease]) ∧
    (∀ (env : Env) (st : ToolState),
      Event.lockAcquire ∉ (get_current_state env st).2.2 ∧
      Event.lockRelease ∉ (get_current_state env st).2.2) := by
  refine ⟨?_, ?_, ?_⟩
  · intro env st action p
    unfold execute
    split
    · exact ⟨_, rfl⟩
    · split
      · exact ⟨_, rfl⟩
      · exact ⟨_, rfl⟩
  · intro env st
    unfold cleanup
    split
    · exact ⟨[], rfl⟩
    · split
      · exact ⟨[.quitBrowser], rfl⟩
      · exact ⟨[.quitBrowser], rfl⟩
  · intro env st
    have h : ∃ bevs, (get_current_state env st).2.2 = List.map Event.browser bevs := by
      unfold get_current_state
      split
      · exact ⟨_, rfl⟩
      · split
        · exact ⟨_, rfl⟩
        · split
          · exact ⟨_, rfl⟩
          · exact ⟨_, rfl⟩
    rcases h with ⟨bevs, hb⟩
    rw [hb]
    constructor <;> · intro hmem; simp [List.mem_map] at hmem

/-! ### C3: no fault escapes the dispatch boundary -/

/-- C3: no exception escapes `execute` or `get_current_state`: both are
total functions into `ToolResult`; an exception raised by the dispatched
body (or by the browser launch) surfaces as a failure result whose message
embeds the action name and the raised message, and an exception inside
`get_current_state` surfaces as a failure result embedding the raised
message. -/
theorem C3_no_fault_escape :
    (∀ (env : Env) (d : Driver) (st : ToolState) (action : String) (p : Params)
      (m : String) (d1 : Driver) (evs : List BEvent),
      st.driver = some d →
      dispatchBody env d action p = (.exc m, d1, evs) →
      (execute env st action p).1 =
        mkErr ("Browser action '" ++ action ++ "' failed: " ++ m)) ∧
    (∀ (env : Env) (st : ToolState) (action : String) (p : Params) (m : String),
      st.driver = none → env.launchResult = .exc m →
      (execute env st action p).1 =
        mkErr ("Browser action '" ++ action ++ "' failed: " ++ m)) ∧
    (∀ (env : Env) (d : Driver) (st : ToolState) (m : String),
      st.driver = some d → env.readRes d = .exc m →
      (get_current_state env st).1 =
        mkErr ("Failed to get browser state: " ++ m)) := by
  refine ⟨?_, ?_, ?_⟩
  · intro env d st action p m d1 evs hd hb
    simp [execute, ensure_browser_initialized, hd, hb]
  · intro env st action p m hd hl
    simp [execute, ensure_browser_initialized, hd, hl]
  · intro env d st m hd hr
    simp [get_current_state, ensure_browser_initialized, hd, hr]

theorem C3_witness :
    (execute failNavEnv ⟨some sampleDriver⟩ "go_to_url"
        { noParams with url := some "https://x.test/" }).1 =
      mkErr ("Browser action '" ++ "go_to_url" ++ "' failed: " ++ "boom") ∧
    (execute failLaunchEnv freshState "wait" noParams).1 =
      mkErr ("Browser action '" ++ "wait" ++ "' failed: " ++ "no chrome") ∧
    (get_current_state failReadEnv ⟨some sampleDriver⟩).1 =
      mkErr ("Failed to get browser state: " ++ "lost") :=
  ⟨C3_no_fault_escape.1 failNavEnv sampleDriver _ "go_to_url" _ "boom" sampleDriver
      [.navigate "https://x.test/"] rfl (by decide),
   C3_no_fault_escape.2.1 failLaunchEnv freshState "wait" noParams "no chrome" rfl rfl,
   C3_no_fault_escape.2.2 failReadEnv sampleDriver _ "lost" rfl rfl⟩

/-! ### Dispatch rewrite lemmas -/

theorem dispatch_go_to_url (env : Env) (drv : Driver) (p : Params) :
    dispatchBody env drv "go_to_url" p = handle_go_to_url env drv p := rfl

theorem dispatch_web_search (env : Env) (drv : Driver) (p : Params) :
    dispatchBody env drv "web_search" p = handle_web_search env drv p := rfl

theorem dispatch_click_element (env : Env) (drv : Driver) (p : Params) :
    dispatchBody env drv "click_element" p = handle_click_element env drv p := rfl

theorem dispatch_input_text (env : Env) (drv : Driver) (p : Params) :
    dispatchBody env drv "input_text" p = handle_input_text env drv p := rfl

theorem dispatch_scroll_to_text (env : Env) (drv : Driver) (p : Params) :
    dispatchBody env drv "scroll_to_text" p = handle_scroll_to_text env drv p := rfl

theorem dispatch_send_keys (env : Env) (drv : Driver) (p : Params) :
    dispatchBody env drv "send_keys" p = handle_send_keys env drv p := rfl

theorem dispatch_get_dropdown_options (env : Env) (drv : Driver) (p : Params) :
    dispatchBody env drv "get_dropdown_options" p = handle_get_dropdown_options drv p := rfl

theorem dispatch_select_dropdown_option (env : Env) (drv : Driver) (p : Params) :
    dispatchBody env drv "select_dropdown_option" p =
      handle_select_dropdown_option env drv p := rfl

theorem dispatch_extract_content (env : Env) (drv : Driver) (p : Params) :
    dispatchBody env drv "extract_content" p = handle_extract_content env drv p := rfl

theorem dispatch_switch_tab (env : Env) (drv : Driver) (p : Params) :
    dispatchBody env drv "switch_tab" p = handle_switch_tab env drv p := rfl

theorem dispatch_open_tab (env : Env) (drv : Driver) (p : Params) :
    dispatchBody env drv "open_tab" p = handle_open_tab env drv p := rfl

theorem dispatch_close_tab (env : Env) (drv : Driver) (p : Params) :
    dispatchBody env drv "close_tab" p = handle_close_tab env drv := rfl

/-! ### C1 / C2: validation order and unknown actions -/

theorem execute_validation (env : Env) (st : ToolState) (d0 : Driver)
    (a : String) (p : Params) (msg : String)
    (hl : env.launchResult = .ok d0)
    (hbody : ∀ drv, dispatchBody env drv a p = (.ok (mkErr msg), drv, [])) :
    validationConcl env st a p msg := by
  rcases hst : st.driver with _ | d
  · refine ⟨?_, ?_, ?_, ?_⟩ <;>
      simp [execute, ensure_browser_initialized, hst, hl, hbody, validationConcl]
  · refine ⟨?_, ?_, ?_, ?_⟩ <;>
      simp [execute, ensure_browser_initialized, hst, hbody, validationConcl]

/-- C1 (counterexample): the claim fails twice over.  First,
`scroll_amount` is declared required for `scroll_down` in the schema's
dependencies, yet calling `execute` without it succeeds with the default
of 1080 pixels instead of failing.  Second, a missing-required-parameter
call (`go_to_url` without a url) on a fresh instance does return a failure
naming the field — but only after the session lock was acquired and the
browser session was created: afterwards a session exists. -/
theorem C1_counterexample :
    ("scroll_down", ["scroll_amount"]) ∈ dependencies ∧
    (execute okEnv freshState "scroll_down" noParams).1 =
      mkOut "Scrolled down by 1080 pixels" ∧
    (execute okEnv freshState "go_to_url" noParams).1 =
      mkErr "URL is required for 'go_to_url' action" ∧
    freshState.driver = none ∧
    (execute okEnv freshState "go_to_url" noParams).2.1.driver = some sampleDriver ∧
    Event.lockAcquire ∈ (execute okEnv freshState "go_to_url" noParams).2.2 ∧
    Event.browser BEvent.launch ∈ (execute okEnv freshState "go_to_url" noParams).2.2 := by
  decide

/-- C1 (amended): for every action whose handler enforces its required
parameters — all actions with declared required parameters except
`scroll_down`, `scroll_up` and `wait`, whose declared `scroll_amount` /
`seconds` are silently defaulted — calling `execute` with such a parameter
missing (or, for string parameters, empty) returns a failure result naming
the missing field; but the session lock is acquired and the browser
session lazily created before this validation, so after such a call a
session exists (the only browser interaction being the lazy launch). -/
theorem C1_amended :
    (∀ (env : Env) (st : ToolState) (d0 : Driver) (p : Params),
      env.launchResult = .ok d0 → falsyS p.url = true →
      validationConcl env st "go_to_url" p "URL is required for 'go_to_url' action") ∧
    (∀ (env : Env) (st : ToolState) (d0 : Driver) (p : Params),
      env.launchResult = .ok d0 → falsyS p.query = true →
      validationConcl env st "web_search" p "Query is required for 'web_search' action") ∧
    (∀ (env : Env) (st : ToolState) (d0 : Driver) (p : Params),
      env.launchResult = .ok d0 → p.index = none →
      validationConcl env st "click_element" p "Index is required for 'click_element' action") ∧
    (∀ (env : Env) (st : ToolState) (d0 : Driver) (p : Params),
      env.launchResult = .ok d0 → (p.index.isNone || falsyS p.text) = true →
      validationConcl env st "input_text" p "Index and text are required for 'input_text' action") ∧
    (∀ (env : Env) (st : ToolState) (d0 : Driver) (p : Params),
      env.launchResult = .ok d0 → falsyS p.text = true →
      validationConcl env st "scroll_to_text" p "Text is required for 'scroll_to_text' action") ∧
    (∀ (env : Env) (st : ToolState) (d0 : Driver) (p : Params),
      env.launchResult = .ok d0 → falsyS p.keys = true →
      validationConcl env st "send_keys" p "Keys are required for 'send_keys' action") ∧
    (∀ (env : Env) (st : ToolState) (d0 : Driver) (p : Params),
      env.launchResult = .ok d0 → p.index = none →
      validationConcl env st "get_dropdown_options" p
        "Index is required for 'get_dropdown_options' action") ∧
    (∀ (env : Env) (st : ToolState) (d0 : Driver) (p : Params),
      env.launchResult = .ok d0 → (p.index.isNone || falsyS p.text) = true →
      validationConcl env st "select_dropdown_option" p
        "Index and text are required for 'select_dropdown_option' action") ∧
    (∀ (env : Env) (st : ToolState) (d0 : Driver) (p : Params),
      env.launchResult = .ok d0 → falsyS p.goal = true →
      validationConcl env st "extract_content" p "Goal is required for 'extract_content' action") ∧
    (∀ (env : Env) (st : ToolState) (d0 : Driver) (p : Params),
      env.launchResult = .ok d0 → p.tab_id = none →
      validationConcl env st "switch_tab" p "Tab ID is required for 'switch_tab' action") ∧
    (∀ (env : Env) (st : ToolState) (d0 : Driver) (p : Params),
      env.launchResult = .ok d0 → falsyS p.url = true →
      validationConcl env st "open_tab" p "URL is required for 'open_tab' action") := by
  refine ⟨?_, ?_, ?_, ?_, ?_, ?_, ?_, ?_, ?_, ?_, ?_⟩ <;>
    intro env st d0 p hl hp
  · exact execute_validation env st d0 _ p _ hl
      (fun drv => by simp [dispatch_go_to_url, handle_go_to_url, hp])
  · exact execute_validation env st d0 _ p _ hl
      (fun drv => by simp [dispatch_web_search, handle_web_search, hp])
  · exact execute_validation env st d0 _ p _ hl
      (fun drv => by simp [dispatch_click_element, handle_click_element, hp])
  · exact execute_validation env st d0 _ p _ hl
      (fun drv => by simp [dispatch_input_text, handle_input_text, hp])
  · exact execute_validation env st d0 _ p _ hl
      (fun drv => by simp [dispatch_scroll_to_text, handle_scroll_to_text, hp])
  · exact execute_validation env st d0 _ p _ hl
      (fun drv => by simp [dispatch_send_keys, handle_send_keys, hp])
  · exact execute_validation env st d0 _ p _ hl
      (fun drv => by simp [dispatch_get_dropdown_options, handle_get_dropdown_options, hp])
  · exact execute_validation env st d0 _ p _ hl
      (fun drv => by simp [dispatch_select_dropdown_option, handle_select_dropdown_option, hp])
  · exact execute_validation env st d0 _ p _ hl
      (fun drv => by simp [dispatch_extract_content, handle_extract_content, hp])
  · exact execute_validation env st d0 _ p _ hl
      (fun drv => by simp [dispatch_switch_tab, handle_switch_tab, hp])
  · exact execute_validation env st d0 _ p _ hl
      (fun drv => by simp [dispatch_open_tab, handle_open_tab, hp])

theorem C1_witness :
    validationConcl okEnv freshState "go_to_url" noParams
      "URL is required for 'go_to_url' action" :=
  C1_amended.1 okEnv freshState sampleDriver noParams rfl rfl

/-- C2 (counterexample): the claim fails twice over.  First, the action
name `refresh` is outside the fixed action enumeration, yet `execute`
does not return an unknown-action failure for it: it reloads the page and
returns a success result.  Second, an unknown action name (`foo`) on a
fresh instance does return the unknown-action failure — but the call is
not a browser-untouched no-op: it lazily creates the browser session
first. -/
theorem C2_counterexample :
    "refresh" ∉ actionEnum ∧
    (execute okEnv ⟨some sampleDriver⟩ "refresh" noParams).1 =
      mkOut "Refreshed current page" ∧
    "foo" ∉ actionEnum ∧
    (execute okEnv freshState "foo" noParams).1 = mkErr "Unknown action: foo" ∧
    freshState.driver = none ∧
    (execute okEnv freshState "foo" noParams).2.1.driver = some sampleDriver ∧
    Event.browser BEvent.launch ∈ (execute okEnv freshState "foo" noParams).2.2 := by
  decide

/-- C2 (amended): for every action name outside the fixed action
enumeration other than `refresh` (which, although absent from the
enumeration, is handled as a page reload), `execute` returns a failure
result (not a raised fault) whose message carries the literal unknown
action name; however the browser session is lazily created before the
dispatch reaches the unknown-action branch, so on a fresh instance a
session exists afterwards, the lazy launch being the only browser
interaction of the call. -/
theorem C2_amended (env : Env) (st : ToolState) (d0 : Driver) (action : String)
    (p : Params) (hl : env.launchResult = .ok d0)
    (hmem : action ∉ actionEnum) (href : action ≠ "refresh") :
    validationConcl env st action p ("Unknown action: " ++ action) := by
  simp only [actionEnum, List.mem_cons, List.not_mem_nil, or_false] at hmem
  push_neg at hmem
  obtain ⟨h1, h2, h3, h4, h5, h6, h7, h8, h9, h10, h11, h12, h13, h14, h15, h16⟩ := hmem
  refine execute_validation env st d0 action p _ hl (fun drv => ?_)
  simp [dispatchBody, h1, h2, h3, h4, h5, h6, h7, h8, h9, h10, h11, h12, h13, h14,
    h15, h16, href]

theorem C2_witness :
    validationConcl okEnv freshState "foo" noParams ("Unknown action: " ++ "foo") :=
  C2_amended okEnv freshState sampleDriver "foo" noParams rfl (by decide) (by decide)

/-! ### pyIdx lemmas -/

theorem pyIdx_nonneg {α : Type} (l : List α) (i : Int) (h : 0 ≤ i) :
    pyIdx l i = l.get? i.toNat := by
  unfold pyIdx
  rw [if_pos h]

theorem pyIdx_neg {α : Type} (l : List α) (i : Int) (h : i < 0)
    (h2 : 0 ≤ i + l.length) : pyIdx l i = l.get? (i + l.length).toNat := by
  unfold pyIdx
  rw [if_neg (by omega), if_pos h2]

theorem pyIdx_range_neg_one (n : Nat) (h : 1 ≤ n) :
    pyIdx (List.range n) (-1) = some (n - 1) := by
  have h2 : ((-1 : Int) + (List.range n).length).toNat = n - 1 := by
    simp only [List.length_range]
    omega
  rw [pyIdx_neg _ _ (by omega) (by simp only [List.length_range]; omega), h2]
  rw [List.get?_eq_getElem?]
  have hlt : n - 1 < n := by omega
  simp [List.getElem?_range, hlt]

/-! ### C7: close_tab -/

/-- C7: `close_tab` on a single-tab session returns a failure result and
leaves the tab open (the driver state, tab list included, is unchanged);
on a session with two or more tabs it closes the current tab and leaves
focus on the last remaining tab. -/
theorem C7_close_tab (env : Env) (st : ToolState) (d : Driver)
    (hd : st.driver = some d) (hw : ∀ x, env.waitBody x = .ok ()) :
    (d.tabs.length = 1 →
      (execute env st "close_tab" noParams).1 = mkErr "Cannot close the last tab" ∧
      (execute env st "close_tab" noParams).2.1.driver = some d) ∧
    (2 ≤ d.tabs.length → d.current < d.tabs.length →
      (execute env st "close_tab" noParams).1 = mkOut "Closed current tab" ∧
      ∃ d2, (execute env st "close_tab" noParams).2.1.driver = some d2 ∧
        d2.tabs = d.tabs.eraseIdx d.current ∧
        d2.tabs.length = d.tabs.length - 1 ∧
        d2.current = d2.tabs.length - 1) := by
  constructor
  · intro h1
    have hn : ¬ 1 < d.tabs.length := by omega
    have hb : handle_close_tab env d = (.ok (mkErr "Cannot close the last tab"), d, []) := by
      unfold handle_close_tab
      rw [if_neg hn]
    constructor <;>
      simp [execute, ensure_browser_initialized, hd, dispatch_close_tab, hb]
  · intro h2 hc
    have hlt : 1 < d.tabs.length := h2
    have hlen : (d.tabs.eraseIdx d.current).length = d.tabs.length - 1 :=
      List.length_eraseIdx_of_lt hc
    have hpy : pyIdx (List.range (d.tabs.eraseIdx d.current).length) (-1) =
        some ((d.tabs.eraseIdx d.current).length - 1) :=
      pyIdx_range_neg_one _ (by omega)
    have hb : handle_close_tab env d =
        (.ok (mkOut "Closed current tab"),
          { d with tabs := d.tabs.eraseIdx d.current,
                   current := (d.tabs.eraseIdx d.current).length - 1 },
          [.closeWindow, .switchWindow ((d.tabs.eraseIdx d.current).length - 1), .waitBody]) := by
      unfold handle_close_tab
      rw [if_pos hlt]
      simp only [hpy, hw]
    have he1 : (execute env st "close_tab" noParams).1 = mkOut "Closed current tab" := by
      simp [execute, ensure_browser_initialized, hd, dispatch_close_tab, hb]
    have he2 : (execute env st "close_tab" noParams).2.1.driver =
        some { d with tabs := d.tabs.eraseIdx d.current,
                      current := (d.tabs.eraseIdx d.current).length - 1 } := by
      simp [execute, ensure_browser_initialized, hd, dispatch_close_tab, hb]
    exact ⟨he1, _, he2, rfl, hlen, rfl⟩

theorem C7_witness :
    ((execute okEnv ⟨some sampleDriver⟩ "close_tab" noParams).1 =
        mkOut "Closed current tab" ∧
      ∃ d2, (execute okEnv ⟨some sampleDriver⟩ "close_tab" noParams).2.1.driver = some d2 ∧
        d2.tabs = sampleDriver.tabs.eraseIdx sampleDriver.current ∧
        d2.tabs.length = sampleDriver.tabs.length - 1 ∧
        d2.current = d2.tabs.length - 1) :=
  (C7_close_tab okEnv ⟨some sampleDriver⟩ sampleDriver rfl (fun _ => rfl)).2
    (by decide) (by decide)

/-! ### C9: tab listing in the state snapshot -/

/-- C9 (counterexample): the snapshot's tab list does not pair every open
tab with that tab's URL: on a two-tab session focused on the first tab,
the second tab's entry carries the empty string, not the tab's URL. -/
theorem C9_counterexample :
    sampleDriver.tabs.get? 1 = some ⟨"https://b.test/"⟩ ∧
    stateTabs sampleDriver = [(0, "https://a.test/"), (1, "")] ∧
    (1, "https://b.test/") ∉ stateTabs sampleDriver ∧
    (get_current_state okEnv ⟨some sampleDriver⟩).1.output =
      some (renderStateInfo (stateInfo sampleDriver)) := by
  exact ⟨rfl, by decide, by decide, rfl⟩

/-- C9 (amended): the snapshot returned by `get_current_state` contains
one `(tab-id, url)` pair per open tab, covering all open tabs; but the
url component is the current URL only for the focused tab and the empty
string for every other tab. -/
theorem C9_amended (d : Driver) :
    (stateTabs d).length = d.tabs.length ∧
    (∀ i, i < d.tabs.length →
      (stateTabs d).get? i = some (i, if i = d.current then currentUrl d else "")) ∧
    (stateInfo d).tabs = stateTabs d ∧
    (∀ (env : Env) (st : ToolState), st.driver = some d →
      env.readRes d = .ok () → env.screenshotRes d = .ok () →
      (get_current_state env st).1.output = some (renderStateInfo (stateInfo d))) := by
  refine ⟨by simp [stateTabs], ?_, rfl, ?_⟩
  · intro i hi
    simp [stateTabs, List.get?_eq_getElem?, List.getElem?_range, hi]
  · intro env st hd hr hs
    simp [get_current_state, ensure_browser_initialized, hd, hr, hs]

theorem C9_witness :
    (stateTabs sampleDriver).get? 1 =
      some (1, if 1 = sampleDriver.current then currentUrl sampleDriver else "") :=
  (C9_amended sampleDriver).2.1 1 (by decide)

/-! ### C8: extract_content outcomes -/

/-- C8: for `extract_content` with a goal, when the language model's
response is absent or contains no tool invocation, the result is a success
whose output explicitly states that nothing was extracted; when the model
returns a tool call whose arguments fail to parse, the exception surfaces
as a failure result, not a silent empty success. -/
theorem C8_extract_content (env : Env) (st : ToolState) (d : Driver) (p : Params)
    (content prompt : String) (hd : st.driver = some d) (hg : falsyS p.goal = false)
    (hm : env.markdownifyRes d.pageSource = .ok content)
    (hprompt : prompt = extractionPrompt (p.goal.getD "") (content.take env.maxContentLength)) :
    (env.askToolRes prompt = .ok none →
      (execute env st "extract_content" p).1 =
        mkOut "No content was extracted from the page.") ∧
    (∀ resp, resp.tool_calls = [] → env.askToolRes prompt = .ok (some resp) →
      (execute env st "extract_content" p).1 =
        mkOut "No content was extracted from the page.") ∧
    (∀ resp tc rest m, resp.tool_calls = tc :: rest →
      env.askToolRes prompt = .ok (some resp) →
      env.parseArgsRes tc.arguments = .exc m →
      (execute env st "extract_content" p).1 =
        mkErr ("Browser action '" ++ "extract_content" ++ "' failed: " ++ m)) := by
  subst hprompt
  refine ⟨?_, ?_, ?_⟩
  · intro ha
    simp [execute, ensure_browser_initialized, hd, dispatch_extract_content,
      handle_extract_content, hg, hm, ha]
  · intro resp htc ha
    simp [execute, ensure_browser_initialized, hd, dispatch_extract_content,
      handle_extract_content, hg, hm, ha, htc]
  · intro resp tc rest m htc ha hparse
    simp [execute, ensure_browser_initialized, hd, dispatch_extract_content,
      handle_extract_content, hg, hm, ha, htc, hparse]

theorem C8_witness :
    (execute noCallEnv ⟨some sampleDriver⟩ "extract_content"
        { noParams with goal := some "find the title" }).1 =
      mkOut "No content was extracted from the page." ∧
    (execute badParseEnv ⟨some sampleDriver⟩ "extract_content"
        { noParams with goal := some "find the title" }).1 =
      mkErr ("Browser action '" ++ "extract_content" ++ "' failed: " ++ "bad json") :=
  ⟨(C8_extract_content noCallEnv ⟨some sampleDriver⟩ sampleDriver
      { noParams with goal := some "find the title" } sampleDriver.pageSource
      (extractionPrompt "find the title" (sampleDriver.pageSource.take 2000))
      rfl rfl rfl rfl).1 rfl,
   (C8_extract_content badParseEnv ⟨some sampleDriver⟩ sampleDriver
      { noParams with goal := some "find the title" } sampleDriver.pageSource
      (extractionPrompt "find the title" (sampleDriver.pageSource.take 2000))
      rfl rfl rfl rfl).2.2 ⟨[⟨"argtext"⟩]⟩ ⟨"argtext"⟩ [] "bad json"
      rfl rfl rfl⟩

/-! ### C4: index bounds and fresh resolution -/

/-- C4: for `click_element`, `input_text`, `get_dropdown_options` and
`select_dropdown_option`, an index at least the length of the freshly read
element list of the action's category yields a failure result referencing
that index; with an in-range index the action acts on the element at that
ordinal position of the category list of the driver state at execution
time (the acting event carries exactly that element). -/
theorem C4_index_resolution (env : Env) (st : ToolState) (d : Driver)
    (hd : st.driver = some d) :
    (∀ p i, p.index = some i → (d.clickable.length : Int) ≤ i →
      (execute env st "click_element" p).1 =
        mkErr ("Element with index " ++ toString i ++ " not found")) ∧
    (∀ p i el, p.index = some i → 0 ≤ i → i < (d.clickable.length : Int) →
      d.clickable.get? i.toNat = some el →
      Event.browser (BEvent.clickElem el) ∈ (execute env st "click_element" p).2.2) ∧
    (∀ p i, p.index = some i → falsyS p.text = false → (d.textInputs.length : Int) ≤ i →
      (execute env st "input_text" p).1 =
        mkErr ("Element with index " ++ toString i ++ " not found")) ∧
    (∀ p i el, p.index = some i → falsyS p.text = false → 0 ≤ i →
      i < (d.textInputs.length : Int) → d.textInputs.get? i.toNat = some el →
      Event.browser (BEvent.clearElem el) ∈ (execute env st "input_text" p).2.2) ∧
    (∀ p i, p.index = some i → (d.selects.length : Int) ≤ i →
      (execute env st "get_dropdown_options" p).1 =
        mkErr ("Element with index " ++ toString i ++ " not found")) ∧
    (∀ p i sel, p.index = some i → 0 ≤ i → i < (d.selects.length : Int) →
      d.selects.get? i.toNat = some sel →
      Event.browser (BEvent.readSelect sel) ∈
        (execute env st "get_dropdown_options" p).2.2 ∧
      (execute env st "get_dropdown_options" p).1 =
        mkOut ("Dropdown options: " ++ renderOptions sel.options)) ∧
    (∀ p i, p.index = some i → falsyS p.text = false → (d.selects.length : Int) ≤ i →
      (execute env st "select_dropdown_option" p).1 =
        mkErr ("Element with index " ++ toString i ++ " not found")) ∧
    (∀ p i sel, p.index = some i → falsyS p.text = false → 0 ≤ i →
      i < (d.selects.length : Int) → d.selects.get? i.toNat = some sel →
      Event.browser (BEvent.selectOpt sel (p.text.getD "")) ∈
        (execute env st "select_dropdown_option" p).2.2) := by
  refine ⟨?_, ?_, ?_, ?_, ?_, ?_, ?_, ?_⟩
  · intro p i hp hge
    simp [execute, ensure_browser_initialized, hd, dispatch_click_element,
      handle_click_element, hp, hge]
  · intro p i el hp h0 hlt hget
    have hnle : ¬ ((d.clickable.length : Int) ≤ i) := by omega
    have hpy : pyIdx d.clickable i = some el := by
      rw [pyIdx_nonneg _ _ h0]; exact hget
    cases hcr : env.clickRes d el with
    | exc m =>
      simp [execute, ensure_browser_initialized, hd, dispatch_click_element,
        handle_click_element, hp, hpy, hnle, hcr]
    | ok d1 =>
      cases hwb : env.waitBody d1 with
      | exc m =>
        simp [execute, ensure_browser_initialized, hd, dispatch_click_element,
          handle_click_element, hp, hpy, hnle, hcr, hwb]
      | ok u =>
        simp [execute, ensure_browser_initialized, hd, dispatch_click_element,
          handle_click_element, hp, hpy, hnle, hcr, hwb]
  · intro p i hp ht hge
    simp [execute, ensure_browser_initialized, hd, dispatch_input_text,
      handle_input_text, hp, ht, hge]
  · intro p i el hp ht h0 hlt hget
    have hnle : ¬ ((d.textInputs.length : Int) ≤ i) := by omega
    have hpy : pyIdx d.textInputs i = some el := by
      rw [pyIdx_nonneg _ _ h0]; exact hget
    cases hcl : env.clearRes d el with
    | exc m =>
      simp [execute, ensure_browser_initialized, hd, dispatch_input_text,
        handle_input_text, hp, ht, hpy, hnle, hcl]
    | ok d1 =>
      cases hty : env.typeRes d1 el (p.text.getD "") with
      | exc m =>
        simp [execute, ensure_browser_initialized, hd, dispatch_input_text,
          handle_input_text, hp, ht, hpy, hnle, hcl, hty]
      | ok d2 =>
        simp [execute, ensure_browser_initialized, hd, dispatch_input_text,
          handle_input_text, hp, ht, hpy, hnle, hcl, hty]
  · intro p i hp hge
    simp [execute, ensure_browser_initialized, hd, dispatch_get_dropdown_options,
      handle_get_dropdown_options, hp, hge]
  · intro p i sel hp h0 hlt hget
    have hnle : ¬ ((d.selects.length : Int) ≤ i) := by omega
    have hpy : pyIdx d.selects i = some sel := by
      rw [pyIdx_nonneg _ _ h0]; exact hget
    constructor <;>
      simp [execute, ensure_browser_initialized, hd, dispatch_get_dropdown_options,
        handle_get_dropdown_options, hp, hpy, hnle]
  · intro p i hp ht hge
    simp [execute, ensure_browser_initialized, hd, dispatch_select_dropdown_option,
      handle_select_dropdown_option, hp, ht, hge]
  · intro p i sel hp ht h0 hlt hget
    have hnle : ¬ ((d.selects.length : Int) ≤ i) := by omega
    have hpy : pyIdx d.selects i = some sel := by
      rw [pyIdx_nonneg _ _ h0]; exact hget
    cases hso : env.selectOptRes d sel (p.text.getD "") with
    | exc m =>
      simp [execute, ensure_browser_initialized, hd, dispatch_select_dropdown_option,
        handle_select_dropdown_option, hp, ht, hpy, hnle, hso]
    | ok d1 =>
      simp [execute, ensure_browser_initialized, hd, dispatch_select_dropdown_option,
        handle_select_dropdown_option, hp, ht, hpy, hnle, hso]

theorem C4_witness :
    (execute okEnv ⟨some sampleDriver⟩ "click_element"
        { noParams with index := some 5 }).1 =
      mkErr ("Element with index " ++ toString (5 : Int) ++ " not found") ∧
    Event.browser (BEvent.clickElem elC) ∈
      (execute okEnv ⟨some sampleDriver⟩ "click_element"
        { noParams with index := some 2 }).2.2 :=
  ⟨(C4_index_resolution okEnv ⟨some sampleDriver⟩ sampleDriver rfl).1
      { noParams with index := some 5 } 5 rfl (by decide),
   (C4_index_resolution okEnv ⟨some sampleDriver⟩ sampleDriver rfl).2.1
      { noParams with index := some 2 } 2 elC rfl (by decide) (by decide) (by decide)⟩

/-! ### C10: negative indices slip past the bounds check -/

/-- C10: the out-of-range check of the four indexed actions only tests
`index >= len`, so a negative index at least `-len` on a non-empty freshly
read element list is not rejected: the action silently acts on the element
counted from the end of the list (Python negative indexing) and reports
success mentioning the negative index, instead of returning a failure. -/
theorem C10_negative_index (env : Env) (st : ToolState) (d : Driver)
    (hd : st.driver = some d)
    (hw : ∀ x, env.waitBody x = .ok ())
    (hclick : ∀ x e, env.clickRes x e = .ok x)
    (hclear : ∀ x e, env.clearRes x e = .ok x)
    (htype : ∀ x e t, env.typeRes x e t = .ok x)
    (hsel : ∀ x s t, env.selectOptRes x s t = .ok x) :
    (∀ p i el, p.index = some i → i < 0 → 0 ≤ i + (d.clickable.length : Int) →
      d.clickable.get? (i + d.clickable.length).toNat = some el →
      (execute env st "click_element" p).1 =
        mkOut ("Clicked element at index " ++ toString i) ∧
      Event.browser (BEvent.clickElem el) ∈ (execute env st "click_element" p).2.2) ∧
    (∀ p i el, p.index = some i → falsyS p.text = false → i < 0 →
      0 ≤ i + (d.textInputs.length : Int) →
      d.textInputs.get? (i + d.textInputs.length).toNat = some el →
      (execute env st "input_text" p).1 =
        mkOut ("Input '" ++ p.text.getD "" ++ "' into element at index " ++ toString i) ∧
      Event.browser (BEvent.typeInto el (p.text.getD "")) ∈
        (execute env st "input_text" p).2.2) ∧
    (∀ p i sel, p.index = some i → i < 0 → 0 ≤ i + (d.selects.length : Int) →
      d.selects.get? (i + d.selects.length).toNat = some sel →
      (execute env st "get_dropdown_options" p).1 =
        mkOut ("Dropdown options: " ++ renderOptions sel.options) ∧
      Event.browser (BEvent.readSelect sel) ∈
        (execute env st "get_dropdown_options" p).2.2) ∧
    (∀ p i sel, p.index = some i → falsyS p.text = false → i < 0 →
      0 ≤ i + (d.selects.length : Int) →
      d.selects.get? (i + d.selects.length).toNat = some sel →
      (execute env st "select_dropdown_option" p).1 =
        mkOut ("Selected option '" ++ p.text.getD "" ++ "' from dropdown at index " ++
          toString i) ∧
      Event.browser (BEvent.selectOpt sel (p.text.getD "")) ∈
        (execute env st "select_dropdown_option" p).2.2) := by
  refine ⟨?_, ?_, ?_, ?_⟩
  · intro p i el hp hneg hinb hget
    have hnle : ¬ ((d.clickable.length : Int) ≤ i) := by omega
    have hpy : pyIdx d.clickable i = some el := by
      rw [pyIdx_neg _ _ hneg]
      · exact hget
      · simpa using hinb
    constructor <;>
      simp [execute, ensure_browser_initialized, hd, dispatch_click_element,
        handle_click_element, hp, hpy, hnle, hclick, hw]
  · intro p i el hp ht hneg hinb hget
    have hnle : ¬ ((d.textInputs.length : Int) ≤ i) := by omega
    have hpy : pyIdx d.textInputs i = some el := by
      rw [pyIdx_neg _ _ hneg]
      · exact hget
      · simpa using hinb
    constructor <;>
      simp [execute, ensure_browser_initialized, hd, dispatch_input_text,
        handle_input_text, hp, ht, hpy, hnle, hclear, htype]
  · intro p i sel hp hneg hinb hget
    have hnle : ¬ ((d.selects.length : Int) ≤ i) := by omega
    have hpy : pyIdx d.selects i = some sel := by
      rw [pyIdx_neg _ _ hneg]
      · exact hget
      · simpa using hinb
    constructor <;>
      simp [execute, ensure_browser_initialized, hd, dispatch_get_dropdown_options,
        handle_get_dropdown_options, hp, hpy, hnle]
  · intro p i sel hp ht hneg hinb hget
    have hnle : ¬ ((d.selects.length : Int) ≤ i) := by omega
    have hpy : pyIdx d.selects i = some sel := by
      rw [pyIdx_neg _ _ hneg]
      · exact hget
      · simpa using hinb
    constructor <;>
      simp [execute, ensure_browser_initialized, hd, dispatch_select_dropdown_option,
        handle_select_dropdown_option, hp, ht, hpy, hnle, hsel]

theorem C10_witness :
    (execute okEnv ⟨some sampleDriver⟩ "click_element"
        { noParams with index := some (-1) }).1 =
      mkOut ("Clicked element at index " ++ toString (-1 : Int)) ∧
    Event.browser (BEvent.clickElem elC) ∈
      (execute okEnv ⟨some sampleDriver⟩ "click_element"
        { noParams with index := some (-1) }).2.2 :=
  (C10_negative_index okEnv ⟨some sampleDriver⟩ sampleDriver rfl
      (fun _ => rfl) (fun _ _ => rfl) (fun _ _ => rfl) (fun _ _ _ => rfl)
      (fun _ _ _ => rfl)).1
    { noParams with index := some (-1) } (-1) elC rfl (by decide) (by decide) (by decide)

/-! ### C5: exactly one of output / error -/

theorem bodyOk_go_to_url (env : Env) (drv : Driver) (p : Params) :
    bodyOk (handle_go_to_url env drv p) := by
  intro r h
  unfold handle_go_to_url at h
  try dsimp only at h
  repeat' split at h
  all_goals cases h
  all_goals first
    | exact exOne_out _ (by (repeat' apply append_ne_empty) <;> decide)
    | exact exOne_err _ (by (repeat' apply append_ne_empty) <;> decide)

theorem bodyOk_go_back (env : Env) (drv : Driver) :
    bodyOk (handle_go_back env drv) := by
  intro r h
  unfold handle_go_back at h
  try dsimp only at h
  repeat' split at h
  all_goals cases h
  all_goals first
    | exact exOne_out _ (by (repeat' apply append_ne_empty) <;> decide)
    | exact exOne_err _ (by (repeat' apply append_ne_empty) <;> decide)

theorem bodyOk_refresh (env : Env) (drv : Driver) :
    bodyOk (handle_refresh env drv) := by
  intro r h
  unfold handle_refresh at h
  try dsimp only at h
  repeat' split at h
  all_goals cases h
  all_goals first
    | exact exOne_out _ (by (repeat' apply append_ne_empty) <;> decide)
    | exact exOne_err _ (by (repeat' apply append_ne_empty) <;> decide)

theorem bodyOk_web_search (env : Env) (drv : Driver) (p : Params)
    (hs : ∀ q resp, env.searchRes q = .ok resp → exactlyOneB resp.asResult = true) :
    bodyOk (handle_web_search env drv p) := by
  intro r h
  unfold handle_web_search at h
  try dsimp only at h
  by_cases hf : falsyS p.query = true
  · rw [if_pos hf] at h
    cases h
    exact exOne_err _ (by decide)
  · rw [if_neg hf] at h
    cases hq : env.searchRes (p.query.getD "") with
    | exc m => rw [hq] at h; cases h
    | ok resp =>
      rw [hq] at h
      dsimp only at h
      cases hh : resp.results.head? with
      | none => rw [hh] at h; cases h
      | some r0 =>
        rw [hh] at h
        dsimp only at h
        cases hn : env.navigate drv r0.url with
        | exc m => rw [hn] at h; cases h
        | ok d1 =>
          rw [hn] at h
          dsimp only at h
          cases hw : env.waitBody d1 with
          | exc m => rw [hw] at h; cases h
          | ok u => rw [hw] at h; cases h; exact hs _ _ hq

theorem bodyOk_click_element (env : Env) (drv : Driver) (p : Params) :
    bodyOk (handle_click_element env drv p) := by
  intro r h
  unfold handle_click_element at h
  try dsimp only at h
  repeat' split at h
  all_goals cases h
  all_goals first
    | exact exOne_out _ (by (repeat' apply append_ne_empty) <;> decide)
    | exact exOne_err _ (by (repeat' apply append_ne_empty) <;> decide)

theorem bodyOk_input_text (env : Env) (drv : Driver) (p : Params) :
    bodyOk (handle_input_text env drv p) := by
  intro r h
  unfold handle_input_text at h
  try dsimp only at h
  repeat' split at h
  all_goals cases h
  all_goals first
    | exact exOne_out _ (by (repeat' apply append_ne_empty) <;> decide)
    | exact exOne_err _ (by (repeat' apply append_ne_empty) <;> decide)

theorem bodyOk_scroll (env : Env) (drv : Driver) (action : String) (p : Params) :
    bodyOk (handle_scroll env drv action p) := by
  intro r h
  unfold handle_scroll at h
  try dsimp only at h
  repeat' split at h
  all_goals cases h
  all_goals first
    | exact exOne_out _ (by (repeat' apply append_ne_empty) <;> decide)
    | exact exOne_err _ (by (repeat' apply append_ne_empty) <;> decide)

theorem bodyOk_scroll_to_text (env : Env) (drv : Driver) (p : Params) :
    bodyOk (handle_scroll_to_text env drv p) := by
  intro r h
  unfold handle_scroll_to_text at h
  try dsimp only at h
  repeat' split at h
  all_goals cases h
  all_goals first
    | exact exOne_out _ (by (repeat' apply append_ne_empty) <;> decide)
    | exact exOne_err _ (by (repeat' apply append_ne_empty) <;> decide)

theorem bodyOk_send_keys (env : Env) (drv : Driver) (p : Params) :
    bodyOk (handle_send_keys env drv p) := by
  intro r h
  unfold handle_send_keys at h
  try dsimp only at h
  repeat' split at h
  all_goals cases h
  all_goals first
    | exact exOne_out _ (by (repeat' apply append_ne_empty) <;> decide)
    | exact exOne_err _ (by (repeat' apply append_ne_empty) <;> decide)

theorem bodyOk_get_dropdown_options (drv : Driver) (p : Params) :
    bodyOk (handle_get_dropdown_options drv p) := by
  intro r h
  unfold handle_get_dropdown_options at h
  try dsimp only at h
  repeat' split at h
  all_goals cases h
  all_goals first
    | exact exOne_out _ (by (repeat' apply append_ne_empty) <;> decide)
    | exact exOne_err _ (by (repeat' apply append_ne_empty) <;> decide)

theorem bodyOk_select_dropdown_option (env : Env) (drv : Driver) (p : Params) :
    bodyOk (handle_select_dropdown_option env drv p) := by
  intro r h
  unfold handle_select_dropdown_option at h
  try dsimp only at h
  repeat' split at h
  all_goals cases h
  all_goals first
    | exact exOne_out _ (by (repeat' apply append_ne_empty) <;> decide)
    | exact exOne_err _ (by (repeat' apply append_ne_empty) <;> decide)

theorem bodyOk_extract_content (env : Env) (drv : Driver) (p : Params) :
    bodyOk (handle_extract_content env drv p) := by
  intro r h
  unfold handle_extract_content at h
  try dsimp only at h
  repeat' split at h
  all_goals cases h
  all_goals first
    | exact exOne_out _ (by (repeat' apply append_ne_empty) <;> decide)
    | exact exOne_err _ (by (repeat' apply append_ne_empty) <;> decide)

theorem bodyOk_switch_tab (env : Env) (drv : Driver) (p : Params) :
    bodyOk (handle_switch_tab env drv p) := by
  intro r h
  unfold handle_switch_tab at h
  try dsimp only at h
  repeat' split at h
  all_goals cases h
  all_goals first
    | exact exOne_out _ (by (repeat' apply append_ne_empty) <;> decide)
    | exact exOne_err _ (by (repeat' apply append_ne_empty) <;> decide)

theorem bodyOk_open_tab (env : Env) (drv : Driver) (p : Params) :
    bodyOk (handle_open_tab env drv p) := by
  intro r h
  unfold handle_open_tab at h
  try dsimp only at h
  repeat' split at h
  all_goals cases h
  all_goals first
    | exact exOne_out _ (by (repeat' apply append_ne_empty) <;> decide)
    | exact exOne_err _ (by (repeat' apply append_ne_empty) <;> decide)

theorem bodyOk_close_tab (env : Env) (drv : Driver) :
    bodyOk (handle_close_tab env drv) := by
  intro r h
  unfold handle_close_tab at h
  try dsimp only at h
  repeat' split at h
  all_goals cases h
  all_goals first
    | exact exOne_out _ (by (repeat' apply append_ne_empty) <;> decide)
    | exact exOne_err _ (by (repeat' apply append_ne_empty) <;> decide)

theorem bodyOk_wait (drv : Driver) (p : Params) :
    bodyOk (handle_wait drv p) := by
  intro r h
  cases h
  exact exOne_out _ (by (repeat' apply append_ne_empty) <;> decide)

set_option maxHeartbeats 2000000 in
theorem bodyOk_dispatch (env : Env) (drv : Driver) (action : String) (p : Params)
    (hs : ∀ q resp, env.searchRes q = .ok resp → exactlyOneB resp.asResult = true) :
    bodyOk (dispatchBody env drv action p) := by
  unfold dispatchBody
  by_cases h1 : action = "go_to_url"
  · rw [if_pos h1]; exact bodyOk_go_to_url env drv p
  rw [if_neg h1]
  by_cases h2 : action = "go_back"
  · rw [if_pos h2]; exact bodyOk_go_back env drv
  rw [if_neg h2]
  by_cases h3 : action = "refresh"
  · rw [if_pos h3]; exact bodyOk_refresh env drv
  rw [if_neg h3]
  by_cases h4 : action = "web_search"
  · rw [if_pos h4]; exact bodyOk_web_search env drv p hs
  rw [if_neg h4]
  by_cases h5 : action = "click_element"
  · rw [if_pos h5]; exact bodyOk_click_element env drv p
  rw [if_neg h5]
  by_cases h6 : action = "input_text"
  · rw [if_pos h6]; exact bodyOk_input_text env drv p
  rw [if_neg h6]
  by_cases h7a : action = "scroll_down"
  · rw [if_pos (by simp [h7a])]; exact bodyOk_scroll env drv action p
  by_cases h7b : action = "scroll_up"
  · rw [if_pos (by simp [h7b])]; exact bodyOk_scroll env drv action p
  rw [if_neg (by simp [h7a, h7b])]
  by_cases h8 : action = "scroll_to_text"
  · rw [if_pos h8]; exact bodyOk_scroll_to_text env drv p
  rw [if_neg h8]
  by_cases h9 : action = "send_keys"
  · rw [if_pos h9]; exact bodyOk_send_keys env drv p
  rw [if_neg h9]
  by_cases h10 : action = "get_dropdown_options"
  · rw [if_pos h10]; exact bodyOk_get_dropdown_options drv p
  rw [if_neg h10]
  by_cases h11 : action = "select_dropdown_option"
  · rw [if_pos h11]; exact bodyOk_select_dropdown_option env drv p
  rw [if_neg h11]
  by_cases h12 : action = "extract_content"
  · rw [if_pos h12]; exact bodyOk_extract_content env drv p
  rw [if_neg h12]
  by_cases h13 : action = "switch_tab"
  · rw [if_pos h13]; exact bodyOk_switch_tab env drv p
  rw [if_neg h13]
  by_cases h14 : action = "open_tab"
  · rw [if_pos h14]; exact bodyOk_open_tab env drv p
  rw [if_neg h14]
  by_cases h15 : action = "close_tab"
  · rw [if_pos h15]; exact bodyOk_close_tab env drv
  rw [if_neg h15]
  by_cases h16 : action = "wait"
  · rw [if_pos h16]; exact bodyOk_wait drv p
  rw [if_neg h16]
  intro r h
  cases h
  exact exOne_err _ (append_ne_empty _ _ (by decide))

theorem execute_eq_launch_exc (env : Env) (st : ToolState) (action : String)
    (p : Params) (m : String) (st1 : ToolState) (evs : List BEvent)
    (h : ensure_browser_initialized env st = (.exc m, st1, evs)) :
    (execute env st action p).1 =
      mkErr ("Browser action '" ++ action ++ "' failed: " ++ m) := by
  unfold execute
  rw [h]

theorem execute_eq_body_exc (env : Env) (st : ToolState) (action : String)
    (p : Params) (drv : Driver) (st1 : ToolState) (evs : List BEvent)
    (m : String) (d1 : Driver) (evs2 : List BEvent)
    (h : ensure_browser_initialized env st = (.ok drv, st1, evs))
    (hb : dispatchBody env drv action p = (.exc m, d1, evs2)) :
    (execute env st action p).1 =
      mkErr ("Browser action '" ++ action ++ "' failed: " ++ m) := by
  unfold execute
  rw [h]
  dsimp only
  rw [hb]

theorem execute_eq_body_ok (env : Env) (st : ToolState) (action : String)
    (p : Params) (drv : Driver) (st1 : ToolState) (evs : List BEvent)
    (r : ToolResult) (d1 : Driver) (evs2 : List BEvent)
    (h : ensure_browser_initialized env st = (.ok drv, st1, evs))
    (hb : dispatchBody env drv action p = (.ok r, d1, evs2)) :
    (execute env st action p).1 = r := by
  unfold execute
  rw [h]
  dsimp only
  rw [hb]

/-- C5: for every action name and parameter map, the result returned by
`execute` populates exactly one of output and error — a non-empty output
and no error, or a non-empty error and no output — provided the one
result `execute` forwards verbatim (the web-search collaborator's
response) itself satisfies that shape. -/
theorem C5_exactly_one (env : Env) (st : ToolState) (action : String) (p : Params)
    (hs : ∀ q resp, env.searchRes q = .ok resp → exactlyOneB resp.asResult = true) :
    exactlyOneB (execute env st action p).1 = true := by
  rcases he : ensure_browser_initialized env st with ⟨o1, st1, evs⟩
  cases o1 with
  | exc m =>
    rw [execute_eq_launch_exc env st action p m st1 evs he]
    exact exOne_err _ (by (repeat' apply append_ne_empty) <;> decide)
  | ok drv =>
    rcases hb : dispatchBody env drv action p with ⟨o2, d1, evs2⟩
    cases o2 with
    | exc m =>
      rw [execute_eq_body_exc env st action p drv st1 evs m d1 evs2 he hb]
      exact exOne_err _ (by (repeat' apply append_ne_empty) <;> decide)
    | ok r =>
      rw [execute_eq_body_ok env st action p drv st1 evs r d1 evs2 he hb]
      exact bodyOk_dispatch env drv action p hs r (by rw [hb])

theorem C5_witness :
    exactlyOneB (execute okEnv freshState "web_search"
      { noParams with query := some "lean" }).1 = true :=
  C5_exactly_one okEnv freshState "web_search" { noParams with query := some "lean" }
    (fun q resp h => by
      have h2 : resp = ⟨[⟨"https://top.test/"⟩], mkOut "search results"⟩ := by
        cases h; rfl
      rw [h2]; decide)

end BrowserTool
